import Mathlib

/-!
Verification of the `cardinalhq/analyst-mcp` MCP server (shallow embedding).

The repository is a protocol bridge: a registry of named tools, a dispatcher
that answers `list-tools` / `call-tool` / `list-resources` / `read-resource`
RPC requests, a credential resolver, and a thin HTTP backend client.  The
source ships several deployment-mode snapshots of the same design:

  * `src/dist/server.js` (first document): the compiled explicit-credential
    variant, whose registry carries nine tools and whose handlers validate
    `credentials` / `profileId` through `extractCredentials`;
  * `src/dist/server.js` (second document): the environment-sourced variant
    (`getCredentialsFromEnv`, `extractCredentials` reading the env, and a
    `ReadResourceRequestSchema` handler that fetches the backend resource
    list and searches it);
  * `src/unnamed/part_000`: two legacy snapshots.

JavaScript values are embedded as `JsValue`; machine behaviour that matters
to the modelled code (truthiness, `typeof`, property access, `JSON.stringify`,
string coercion, URI component encoding) is embedded alongside.  Numbers are
modelled as integers: no modelled code path does arithmetic on them, they are
only carried, serialized and tested for truthiness.
-/

/-- Embedding of JavaScript values as produced by `JSON.parse` and by tool
argument objects.  `undefined` is included because property access on a
missing key yields it and the modelled code tests it for truthiness. -/
inductive JsValue where
  | undefined : JsValue
  | null : JsValue
  | bool : Bool → JsValue
  | num : Int → JsValue
  | str : String → JsValue
  | arr : List JsValue → JsValue
  | obj : List (String × JsValue) → JsValue
deriving Repr

/-- JavaScript truthiness: `undefined`, `null`, `false`, `0` and `""` are
falsy; every object and array is truthy.  (`NaN` is also falsy in JS; the
integer number model has no `NaN`, and no modelled code path produces one.) -/
def jsTruthy : JsValue → Bool
  | .undefined => false
  | .null => false
  | .bool b => b
  | .num n => n != 0
  | .str s => s != ""
  | .arr _ => true
  | .obj _ => true

/-- Test `typeof v === 'object'`: true for `null`, arrays and plain objects. -/
def jsTypeofObject : JsValue → Bool
  | .null => true
  | .arr _ => true
  | .obj _ => true
  | _ => false

/-- Test `typeof v === 'string'`. -/
def jsTypeofString : JsValue → Bool
  | .str _ => true
  | _ => false

/-- Property access `v[k]`: the first binding of `k` on an object, otherwise
`undefined`.  (JS object literals have unique keys; access on a boxed
primitive or an array with no such property also yields `undefined`.  Access
on `null`/`undefined` throws in JS, but every access in the modelled code is
guarded by a truthiness check, so those cases are unreachable.) -/
def getField : JsValue → String → JsValue
  | .obj fs, k =>
    match fs.find? (fun p => p.1 = k) with
    | some p => p.2
    | none => .undefined
  | _, _ => .undefined

/-- Digit of a hexadecimal nibble, uppercase (as produced by
`encodeURIComponent`). -/
def hexDigit (n : Nat) : Char :=
  if n < 10 then Char.ofNat (48 + n) else Char.ofNat (55 + n)

/-- Percent-encoding of one byte: `%XY` with uppercase hex digits. -/
def percentByte (b : UInt8) : String :=
  "%" ++ String.singleton (hexDigit (b.toNat / 16)) ++ String.singleton (hexDigit (b.toNat % 16))

/-- Characters `encodeURIComponent` leaves unescaped:
alphanumerics and `- _ . ! ~ * ' ( )`. -/
def uriUnreserved (c : Char) : Bool :=
  c.isAlphanum || c = '-' || c = '_' || c = '.' || c = '!' || c = '~' ||
    c = '*' || c = Char.ofNat 39 || c = '(' || c = ')'

/-- Model of JavaScript `encodeURIComponent`: unreserved characters are kept,
every other character is replaced by the percent-encoding of its UTF-8
bytes. -/
def encodeURIComponent (s : String) : String :=
  s.data.foldl
    (fun acc c =>
      if uriUnreserved c then acc ++ String.singleton c
      else acc ++ String.join (((String.singleton c).toUTF8.toList).map percentByte))
    ""

/-- Characters the `application/x-www-form-urlencoded` serializer used by
`URLSearchParams.toString()` leaves unescaped: alphanumerics and `* - . _`. -/
def formUnreserved (c : Char) : Bool :=
  c.isAlphanum || c = '*' || c = '-' || c = '.' || c = '_'

/-- The `application/x-www-form-urlencoded` escaping of one string: space becomes
`+`, unreserved characters are kept, everything else is percent-encoded. -/
def formUrlEncode (s : String) : String :=
  s.data.foldl
    (fun acc c =>
      if c = ' ' then acc ++ "+"
      else if formUnreserved c then acc ++ String.singleton c
      else acc ++ String.join (((String.singleton c).toUTF8.toList).map percentByte))
    ""

/-- Model of `URLSearchParams.set`: replace the value of an existing key in place,
otherwise append the pair. -/
def searchParamsSet (ps : List (String × String)) (k v : String) : List (String × String) :=
  if ps.any (fun p => p.1 = k) then ps.map (fun p => if p.1 = k then (k, v) else p)
  else ps ++ [(k, v)]

/-- Model of `URLSearchParams.toString()`: `k=v` pairs joined by `&`, both sides
form-url-encoded. -/
def searchParamsToString (ps : List (String × String)) : String :=
  String.intercalate "&" (ps.map (fun p => formUrlEncode p.1 ++ "=" ++ formUrlEncode p.2))

mutual
/-- JavaScript `String(v)` / template-literal coercion.  Arrays stringify as
their elements joined by `,` (with `null`/`undefined` elements rendered
empty, per `Array.prototype.join`); plain objects render as
`[object Object]`. -/
def jsToString : JsValue → String
  | .undefined => "undefined"
  | .null => "null"
  | .bool true => "true"
  | .bool false => "false"
  | .num n => toString n
  | .str s => s
  | .arr xs => String.intercalate "," (jsToStringElems xs)
  | .obj _ => "[object Object]"

/-- Element rendering for `Array.prototype.join`. -/
def jsToStringElems : List JsValue → List String
  | [] => []
  | .undefined :: xs => "" :: jsToStringElems xs
  | .null :: xs => "" :: jsToStringElems xs
  | x :: xs => jsToString x :: jsToStringElems xs
end

/-- JSON string-literal escaping as performed by `JSON.stringify`: quote,
backslash and control characters are escaped, everything else is kept. -/
def jsonEscapeChar (c : Char) : String :=
  if c = '"' then "\\\""
  else if c = '\\' then "\\\\"
  else if c = Char.ofNat 8 then "\\b"
  else if c = Char.ofNat 9 then "\\t"
  else if c = Char.ofNat 10 then "\\n"
  else if c = Char.ofNat 12 then "\\f"
  else if c = Char.ofNat 13 then "\\r"
  else if c.toNat < 32 then
    "\\u00" ++ String.singleton (hexDigit (c.toNat / 16)) ++ String.singleton (hexDigit (c.toNat % 16))
  else String.singleton c

/-- A JSON string literal: the escaped characters wrapped in quotes. -/
def jsonQuote (s : String) : String :=
  "\"" ++ String.join (s.data.map jsonEscapeChar) ++ "\""

mutual
/-- Model of `JSON.stringify`.  `none` models the JavaScript `undefined`
result for a top-level `undefined` value (unreachable for values produced by
`res.json()`, which are parsed JSON). -/
def jsonStringify : JsValue → Option String
  | .undefined => none
  | .null => some "null"
  | .bool true => some "true"
  | .bool false => some "false"
  | .num n => some (toString n)
  | .str s => some (jsonQuote s)
  | .arr xs => some ("[" ++ String.intercalate "," (jsonStringifyElems xs) ++ "]")
  | .obj fs => some ("\x7b" ++ String.intercalate "," (jsonStringifyMembers fs) ++ "\x7d")

/-- Array elements: an `undefined` element serializes as `null`. -/
def jsonStringifyElems : List JsValue → List String
  | [] => []
  | x :: xs =>
    ((jsonStringify x).getD "null") :: jsonStringifyElems xs

/-- Object members: members whose value serializes to `undefined` are
dropped. -/
def jsonStringifyMembers : List (String × JsValue) → List String
  | [] => []
  | (k, v) :: fs =>
    match jsonStringify v with
    | none => jsonStringifyMembers fs
    | some s => (jsonQuote k ++ ":" ++ s) :: jsonStringifyMembers fs
end

/-!
## Backend client (`httpPost` / `httpGet`, both variants)

Both helpers compute `ANALYST_BASE + path`, issue the request, throw
`` `${path} ${res.status}: ${await res.text()}` `` on a non-ok status, and
otherwise return `res.json()`.  The platform `fetch` is modelled by an
`HttpResponse` carrying the status, the raw body text and the platform JSON
parse of that body. -/

/-- The network's answer to one request: HTTP status, raw body text, and the
value `res.json()` parses the body to. -/
structure HttpResponse where
  status : Nat
  bodyText : String
  json : JsValue
deriving Repr

/-- Property `Response.ok` per the Fetch standard: status in the range 200–299. -/
def responseOk (r : HttpResponse) : Bool :=
  200 ≤ r.status && r.status ≤ 299

/-- Result of `httpGet(path)` applied to the response the network returned: on a non-ok
status it throws `` `${path} ${res.status}: ${await res.text()}` ``, otherwise
it returns the parsed JSON body with no further validation. -/
def httpGet (path : String) (res : HttpResponse) : Except String JsValue :=
  if responseOk res then .ok res.json
  else .error (path ++ " " ++ toString res.status ++ ": " ++ res.bodyText)

/-- Result of `httpPost(path, body)` applied to the response the network returned; the
request body (sent as `JSON.stringify(body)`) does not influence how the
response is handled, which is identical to `httpGet`. -/
def httpPost (path : String) (_body : JsValue) (res : HttpResponse) : Except String JsValue :=
  if responseOk res then .ok res.json
  else .error (path ++ " " ++ toString res.status ++ ": " ++ res.bodyText)

/-- The single backend HTTP call a tool handler makes, as issued by
`httpGet` / `httpPost`. -/
inductive BackendRequest where
  | get : String → BackendRequest
  | post : String → JsValue → BackendRequest
deriving Repr

/-- A network oracle: what HTTP response each request would receive. -/
def Network : Type := BackendRequest → HttpResponse

/-- Issue one backend request against the network and handle the response the
way `httpGet` / `httpPost` do. -/
def runBackend (net : Network) (req : BackendRequest) : Except String JsValue :=
  match req with
  | .get path => httpGet path (net req)
  | .post path body => httpPost path body (net req)

/-!
## Tool registry (`src/dist/server.js`, first document)

`const tools = new Map(); function registerTool(def) { tools.set(def.name, def); }`
A JS `Map` keeps insertion order and `set` on an existing key replaces the
value in place.  A handler is modelled up to its single backend call: it
either throws (argument validation) or produces the `BackendRequest` it
awaits; the dispatcher then runs that request against the network. -/

structure ToolDef where
  name : String
  description : Option String
  inputSchema : JsValue
  outputSchema : Option JsValue
  run : JsValue → Except String BackendRequest

/-- Model of `tools.set(def.name, def)`: replace in place if the name is present,
otherwise append. -/
def registerTool (m : List ToolDef) (d : ToolDef) : List ToolDef :=
  if m.any (fun t => t.name = d.name) then
    m.map (fun t => if t.name = d.name then d else t)
  else m ++ [d]

/-- Lookup `tools.get(name)`. -/
def toolsGet (m : List ToolDef) (name : String) : Option ToolDef :=
  m.find? (fun t => t.name = name)

/-- Test `tools.has(name)`. -/
def toolsHas (m : List ToolDef) (name : String) : Bool :=
  (toolsGet m name).isSome

/-- The `extractCredentials` helper of the explicit-credential variant: `credentials`
then `profileId` must be truthy; the raw argument values are returned. -/
def extractCredentials (args : JsValue) : Except String (JsValue × JsValue) :=
  if !jsTruthy (getField args "credentials") then
    .error "credentials parameter is required for BigQuery operations"
  else if !jsTruthy (getField args "profileId") then
    .error "profileId parameter is required for BigQuery operations"
  else
    .ok (getField args "profileId", getField args "credentials")

/-- Test `v != null` (JS loose inequality with `null`): false exactly for
`undefined` and `null`. -/
def jsNotNullish : JsValue → Bool
  | .undefined => false
  | .null => false
  | _ => true

/-- Tool `SuggestVisualization` (`src/dist/server.js` lines 46–99). -/
def suggestVisualizationDef : ToolDef where
  name := "SuggestVisualization"
  description := some ("Return a Vega-Lite chart spec that best explains the answer. " ++
    "Call this whenever a metric, trend, comparison, breakdown, or distribution would be clearer with a chart. " ++
    "Prefer bar/line/area for trends and comparisons; scatter for relationships; " ++
    "fallback to a table when data is sparse. Use the provided rows (preferred) or SQL if rows are large.")
  inputSchema := .obj [
    ("type", .str "object"),
    ("properties", .obj [
      ("profileId", .obj [("type", .str "string"), ("description", .str "Profile ID (optional for legacy mode)")]),
      ("rows", .obj [
        ("type", .str "array"),
        ("description", .str "Result rows to visualize (ideally ≤ 2k)."),
        ("items", .obj [("type", .str "object"), ("additionalProperties", .bool true)])]),
      ("dataset", .obj [("type", .str "string"), ("description", .str "Dataset for SQL execution if rows omitted")]),
      ("sql", .obj [("type", .str "string"), ("description", .str "Query used to produce the answer if rows omitted")]),
      ("question", .obj [("type", .str "string"), ("description", .str "Original user question to guide chart choice")]),
      ("prefer", .obj [
        ("type", .str "array"),
        ("items", .obj [("type", .str "string"),
          ("enum", .arr [.str "bar", .str "line", .str "area", .str "scatter", .str "table", .str "map", .str "pie", .str "hist"])])]),
      ("maxSeries", .obj [("type", .str "number"), ("description", .str "Cap number of series/categories (default 12)")]),
      ("maxRows", .obj [("type", .str "number"), ("description", .str "Server-side sample limit when using SQL (default 2000)")])]),
    ("additionalProperties", .bool false)]
  outputSchema := some (.obj [
    ("type", .str "object"),
    ("required", .arr [.str "format", .str "spec"]),
    ("properties", .obj [
      ("format", .obj [("type", .str "string"), ("enum", .arr [.str "vega-lite"])]),
      ("spec", .obj [("type", .str "object")]),
      ("title", .obj [("type", .str "string")]),
      ("rationale", .obj [("type", .str "string")]),
      ("fields", .obj [
        ("type", .str "object"),
        ("properties", .obj [
          ("measures", .obj [("type", .str "array"), ("items", .obj [("type", .str "string")])]),
          ("dimensions", .obj [("type", .str "array"), ("items", .obj [("type", .str "string")])]),
          ("time", .obj [("type", .str "string")]),
          ("aggregation", .obj [("type", .str "string")])])])])])
  run := fun args =>
    .ok (.post "/suggest-viz" (.obj [
      ("profileId", getField args "profileId"),
      ("rows", getField args "rows"),
      ("dataset", getField args "dataset"),
      ("sql", getField args "sql"),
      ("question", getField args "question"),
      ("prefer", getField args "prefer"),
      ("maxSeries", getField args "maxSeries"),
      ("maxRows", getField args "maxRows")]))

/-- Tool `GetTableGraph` (`src/dist/server.js` lines 100–116). -/
def getTableGraphDef : ToolDef where
  name := "GetTableGraph"
  description := some ("Returns the pre-built graph for this profile with tables, schemas, and connections based on attached datasets/tables. " ++
    "The datasets parameter is ignored when profileId is provided - the graph returns the scope attached to the profile.")
  inputSchema := .obj [
    ("type", .str "object"),
    ("required", .arr [.str "profileId", .str "credentials"]),
    ("properties", .obj [
      ("profileId", .obj [("type", .str "string"), ("description", .str "Profile ID")]),
      ("credentials", .obj [("type", .str "string"), ("description", .str "JSON string of BigQuery credentials")])])]
  outputSchema := some (.obj [("type", .str "object")])
  run := fun args => do
    let c ← extractCredentials args
    .ok (.post "/graph" (.obj [("profileId", c.1), ("credentials", c.2)]))

/-- Tool `CheckHealth` (`src/dist/server.js` lines 117–132). -/
def checkHealthDef : ToolDef where
  name := "CheckHealth"
  description := some ("Check health status of the server. " ++
    "When profileId is provided, returns whether the profile graph is ready (ready: true/false).")
  inputSchema := .obj [
    ("type", .str "object"),
    ("properties", .obj [
      ("profileId", .obj [("type", .str "string"), ("description", .str "Optional profile ID to check if graph is ready")])])]
  outputSchema := some (.obj [("type", .str "object")])
  run := fun args =>
    let profileId := getField args "profileId"
    let url := if jsTruthy profileId then
        "/health?profileId=" ++ encodeURIComponent (jsToString profileId)
      else "/health"
    .ok (.get url)

/-- Tool `GetUptoNDistinctStringValues` (`src/dist/server.js` lines 133–162). -/
def getUptoNDistinctStringValuesDef : ToolDef where
  name := "GetUptoNDistinctStringValues"
  description := some "Return up to limit distinct string values for a non-numeric column. Requires credentials."
  inputSchema := .obj [
    ("type", .str "object"),
    ("required", .arr [.str "profileId", .str "credentials", .str "dataset", .str "table", .str "column"]),
    ("properties", .obj [
      ("profileId", .obj [("type", .str "string"), ("description", .str "Profile ID")]),
      ("credentials", .obj [("type", .str "string"), ("description", .str "JSON string of BigQuery credentials")]),
      ("dataset", .obj [("type", .str "string")]),
      ("table", .obj [("type", .str "string")]),
      ("column", .obj [("type", .str "string")]),
      ("limit", .obj [("type", .str "number")])])]
  outputSchema := some (.obj [("type", .str "array"), ("items", .obj [("type", .str "string")])])
  run := fun args => do
    let c ← extractCredentials args
    .ok (.post "/distinct-values" (.obj [
      ("profileId", c.1),
      ("credentials", c.2),
      ("dataset", getField args "dataset"),
      ("table", getField args "table"),
      ("column", getField args "column"),
      ("limit", getField args "limit")]))

/-- Tool `ExecuteSQL` (`src/dist/server.js` lines 163–183). -/
def executeSQLDef : ToolDef where
  name := "ExecuteSQL"
  description := some ("Execute a SELECT/WITH query against a dataset with LLM validation and diagram generation. " ++
    "The question parameter is required and triggers validation before execution. Returns rows + validation evidence + diagram.")
  inputSchema := .obj [
    ("type", .str "object"),
    ("required", .arr [.str "profileId", .str "credentials", .str "dataset", .str "sql", .str "question"]),
    ("properties", .obj [
      ("profileId", .obj [("type", .str "string"), ("description", .str "Profile ID")]),
      ("credentials", .obj [("type", .str "string"), ("description", .str "JSON string of BigQuery credentials")]),
      ("dataset", .obj [("type", .str "string")]),
      ("sql", .obj [("type", .str "string")]),
      ("question", .obj [("type", .str "string"), ("description", .str "Original question - required for LLM validation and diagram generation")])])]
  outputSchema := some (.obj [("type", .str "object")])
  run := fun args => do
    let c ← extractCredentials args
    .ok (.post "/execute-sql" (.obj [
      ("profileId", c.1),
      ("credentials", c.2),
      ("dataset", getField args "dataset"),
      ("sql", getField args "sql"),
      ("question", getField args "question")]))

/-- Tool `ListResources` (`src/dist/server.js` lines 185–210). -/
def listResourcesDef : ToolDef where
  name := "ListResources"
  description := some "List all resources, or search resources by semantic similarity using query, topK, and type filters."
  inputSchema := .obj [
    ("type", .str "object"),
    ("required", .arr [.str "q"]),
    ("properties", .obj [
      ("q", .obj [("type", .str "string"), ("description", .str "Search query for semantic similarity search")]),
      ("topK", .obj [("type", .str "number"), ("description", .str "Number of top results to return (default: 10)")]),
      ("type", .obj [("type", .str "string"),
        ("enum", .arr [.str "gen", .str "reasoning", .str "both", .str "facts"]),
        ("description", .str "Filter by resource type")])])]
  outputSchema := some (.obj [("type", .str "array"), ("items", .obj [("type", .str "object")])])
  run := fun args =>
    let q := getField args "q"
    let topK := getField args "topK"
    let ty := getField args "type"
    let params : List (String × String) := []
    let params := if jsTruthy q then searchParamsSet params "q" (jsToString q) else params
    let params := if jsNotNullish topK then searchParamsSet params "topK" (jsToString topK) else params
    let params := if jsTruthy ty then searchParamsSet params "type" (jsToString ty) else params
    let query := searchParamsToString params
    let url := if query != "" then "/resources?" ++ query else "/resources"
    .ok (.get url)

/-- Tool `GetResource` (`src/dist/server.js` lines 211–226). -/
def getResourceDef : ToolDef where
  name := "GetResource"
  description := some "Get a single resource by ID or URI."
  inputSchema := .obj [
    ("type", .str "object"),
    ("required", .arr [.str "id"]),
    ("properties", .obj [
      ("id", .obj [("type", .str "string"), ("description", .str "Resource ID or URI")])])]
  outputSchema := some (.obj [("type", .str "object")])
  run := fun args =>
    .ok (.get ("/resources/get?id=" ++ encodeURIComponent (jsToString (getField args "id"))))

/-- Tool `UpsertResource` (`src/dist/server.js` lines 227–249). -/
def upsertResourceDef : ToolDef where
  name := "UpsertResource"
  description := some ("Create or update a resource (e.g., glossary/taxonomy) so it persists across sessions and is visible to the agent and backend. " ++
    "Supports auto-embedding if text is provided without embedding.")
  inputSchema := .obj [
    ("type", .str "object"),
    ("required", .arr [.str "id"]),
    ("properties", .obj [
      ("id", .obj [("type", .str "string"), ("description", .str "Resource ID/URI")]),
      ("title", .obj [("type", .str "string")]),
      ("type", .obj [("type", .str "string"), ("description", .str "Resource type: gen, reasoning, facts, etc.")]),
      ("text", .obj [("type", .str "string")]),
      ("etag", .obj [("type", .str "string")]),
      ("embedding", .obj [("type", .str "array"), ("items", .obj [("type", .str "number")]),
        ("description", .str "Optional embedding vector")])]),
    ("additionalProperties", .bool false)]
  outputSchema := some (.obj [("type", .str "object")])
  run := fun args => .ok (.post "/resources/upsert" args)

/-- Tool `DeleteResource` (`src/dist/server.js` lines 250–260). -/
def deleteResourceDef : ToolDef where
  name := "DeleteResource"
  description := some "Delete a resource by ID from the persistent backend."
  inputSchema := .obj [
    ("type", .str "object"),
    ("required", .arr [.str "id"]),
    ("properties", .obj [("id", .obj [("type", .str "string")])])]
  outputSchema := some (.obj [("type", .str "object")])
  run := fun args => .ok (.post "/resources/delete" (.obj [("id", getField args "id")]))

/-- The registry built at startup by the nine sequential `registerTool` calls
of the explicit-credential variant, in source order. -/
def analystTools : List ToolDef :=
  [suggestVisualizationDef, getTableGraphDef, checkHealthDef,
   getUptoNDistinctStringValuesDef, executeSQLDef, listResourcesDef,
   getResourceDef, upsertResourceDef, deleteResourceDef].foldl registerTool []

/-- One entry of the `list-tools` reply. -/
structure ToolAdvert where
  name : String
  description : String
  inputSchema : JsValue

/-- The `ListToolsRequestSchema` handler (`src/dist/server.js` lines 271–277):
`Array.from(tools.values()).map(t => ({name, description: t.description ?? '',
inputSchema}))`. -/
def listTools (reg : List ToolDef) : List ToolAdvert :=
  reg.map (fun t => ⟨t.name, t.description.getD "", t.inputSchema⟩)

/-- One block of a `call-tool` reply content array.  A text block's `text`
field is `JSON.stringify(result)`, which in JS can be `undefined` (hence
`Option`); a resource block carries `resource: {uri, mimeType, text}`. -/
inductive ContentBlock where
  | text : Option String → ContentBlock
  | resource : (uri : String) → (mimeType : String) → (text : String) → ContentBlock
deriving Repr, DecidableEq

/-- Response reshaping of the `CallToolRequestSchema` handler
(`src/dist/server.js` lines 285–305, and verbatim again at lines 943–972 of
the environment-sourced variant): the handler result is serialized into a
single text block, and for `ExecuteSQL`, when `result.evidence.sql_flow_diagram`
is truthy (behind truthiness guards on `result` and `result.evidence` and a
`typeof result === 'object'` test), a string-typed diagram is additionally
pushed as a resource block whose uri embeds `Date.now()` (the `now`
argument). -/
def reshapeToolResult (name : String) (result : JsValue) (now : Nat) : List ContentBlock :=
  if name == "ExecuteSQL" && jsTruthy result && jsTypeofObject result &&
     jsTruthy (getField result "evidence") &&
     jsTruthy (getField (getField result "evidence") "sql_flow_diagram") then
    let base := [ContentBlock.text (jsonStringify result)]
    match getField (getField result "evidence") "sql_flow_diagram" with
    | .str s =>
      base ++ [ContentBlock.resource
        ("mermaid://sql-execution-diagram/" ++ toString now) "text/vnd.mermaid" s]
    | _ => base
  else [ContentBlock.text (jsonStringify result)]

/-- The `CallToolRequestSchema` handler (`src/dist/server.js` lines 279–306):
an unregistered (or empty) tool name fails with `Unknown tool: ${name}`
before any backend traffic; otherwise the tool's handler runs on
`args ?? {}`, its single backend call is issued against the network, and the
backend's JSON result is reshaped. -/
def handleCallTool (reg : List ToolDef) (net : Network) (name : String)
    (args : Option JsValue) (now : Nat) : Except String (List ContentBlock) :=
  if name == "" then .error ("Unknown tool: " ++ name)
  else
    match toolsGet reg name with
    | none => .error ("Unknown tool: " ++ name)
    | some d => do
      let req ← d.run (args.getD (.obj []))
      let result ← runBackend net req
      pure (reshapeToolResult name result now)

/-!
## Environment-sourced variant (`src/dist/server.js`, second document)
-/

/-- The two credential environment variables the environment-sourced variant
reads.  `process.env.X` is a string or `undefined`, hence `Option String`;
the code tests the value for truthiness, so an empty string behaves like an
unset variable. -/
structure CredEnv where
  googleCredentialsJson : Option String
  googleApplicationCredentials : Option String

/-- Truthiness of `process.env.X`. -/
def envTruthy : Option String → Bool
  | none => false
  | some s => s != ""

/-- The `getCredentialsFromEnv` helper (env-sourced variant, `src/dist/server.js` lines
380–404): the direct `GOOGLE_CREDENTIALS_JSON` blob wins; otherwise the file
named by `GOOGLE_APPLICATION_CREDENTIALS` is read (`readFile` models
`fs.readFileSync`, its error models the string form of the thrown error);
with neither source present a configuration error is thrown. -/
def getCredentialsFromEnv (env : CredEnv) (readFile : String → Except String String) :
    Except String String :=
  if envTruthy env.googleCredentialsJson then
    .ok (env.googleCredentialsJson.getD "")
  else if envTruthy env.googleApplicationCredentials then
    let path := env.googleApplicationCredentials.getD ""
    match readFile path with
    | .ok credentials => .ok credentials
    | .error e => .error ("Failed to read credentials from " ++ path ++ ": " ++ e)
  else
    .error "No credentials found. Set either GOOGLE_CREDENTIALS_JSON or GOOGLE_APPLICATION_CREDENTIALS environment variable"

/-- The credential bundle produced by the environment-sourced
`extractCredentials`: the raw `profileId` and `datasourceId` argument values
and the credential blob string. -/
structure CredBundle where
  profileId : JsValue
  datasourceId : JsValue
  credentials : String
deriving Repr

/-- The `extractCredentials` helper of the environment-sourced variant
(`src/dist/server.js` lines 407–423): a falsy `profileId` is a caller-input
error; the credential blob comes from the environment. -/
def extractCredentialsEnv (env : CredEnv) (readFile : String → Except String String)
    (args : JsValue) : Except String CredBundle :=
  if !jsTruthy (getField args "profileId") then
    .error "profileId parameter is required for BigQuery operations"
  else do
    let credentials ← getCredentialsFromEnv env readFile
    .ok ⟨getField args "profileId", getField args "datasourceId", credentials⟩

/-- The `ResourceDoc` type of the environment-sourced variant (`src/dist/server.js`
lines 429–436): the backend's resource document. -/
structure ResourceDoc where
  id : String
  title : Option String
  type : Option String
  text : Option String
  etag : Option String
  embedding : Option (List Int)
deriving Repr, DecidableEq

/-- One entry of a `read-resource` reply. -/
structure ReadContent where
  uri : String
  mimeType : String
  text : String
deriving Repr, DecidableEq

/-- The `ReadResourceRequestSchema` handler of the environment-sourced
variant (`src/dist/server.js` lines 997–1019): fetch the backend's full
resource list, `find` the document whose `id` equals the requested uri, throw
`Resource not found: ${uri}` when the list omits it, and otherwise render the
document's text as `text/plain`. -/
def handleReadResource (list : List ResourceDoc) (uri : String) :
    Except String (List ReadContent) :=
  match list.find? (fun r => r.id = uri) with
  | none => .error ("Resource not found: " ++ uri)
  | some r => .ok [⟨r.id, "text/plain", r.text.getD ""⟩]

/-- The `required` property names an input schema declares: the string
elements of its `required` array (a reading of the JSON-Schema contract the
registry advertises). -/
def schemaRequired (schema : JsValue) : List String :=
  match getField schema "required" with
  | .arr xs => xs.filterMap (fun v => match v with | .str s => some s | _ => none)
  | _ => []

/-!
## Helper lemmas
-/

/-- A key access that does not yield `undefined` can only have happened on an
object. -/
theorem getField_eq_obj {v : JsValue} {k : String} (h : getField v k ≠ .undefined) :
    ∃ fs, v = .obj fs := by
  cases v <;> first
    | exact ⟨_, rfl⟩
    | exact absurd rfl h

/-- Registry lookup of `ExecuteSQL`. -/
theorem toolsGet_executeSQL : toolsGet analystTools "ExecuteSQL" = some executeSQLDef := by
  rfl

/-- Registry lookup of `GetTableGraph`. -/
theorem toolsGet_getTableGraph : toolsGet analystTools "GetTableGraph" = some getTableGraphDef := by
  rfl

/-- Registry lookup of `GetUptoNDistinctStringValues`. -/
theorem toolsGet_getUptoN :
    toolsGet analystTools "GetUptoNDistinctStringValues" = some getUptoNDistinctStringValuesDef := by
  rfl

/-- Predicate stating that `s` contains `sub` as a substring. -/
def strContains (s sub : String) : Prop := ∃ pre post, s = pre ++ sub ++ post

/-!
## Claim theorems
-/

/-- C6: a `call-tool` request whose name is not registered fails with an
`Unknown tool` error naming the tool.  The conclusion holds for every network
oracle `net` and is an `Except.error` value, so no backend request is issued
and the failure is a per-invocation thrown error (the RPC transport, an
external collaborator, catches it and stays usable). -/
theorem callTool_unknown_tool (net : Network) (name : String) (args : Option JsValue)
    (now : Nat) (h : toolsHas analystTools name = false) :
    handleCallTool analystTools net name args now = .error ("Unknown tool: " ++ name) := by
  unfold handleCallTool
  cases hg : toolsGet analystTools name with
  | none => cases hn : (name == "") <;> simp [hn, hg]
  | some d =>
    exfalso
    rw [toolsHas, hg] at h
    simp at h

/-- Witness for C6 at the spec's example `call-tool("UnknownTool", {})`. -/
theorem callTool_unknown_tool_witness :
    toolsHas analystTools "UnknownTool" = false ∧
    handleCallTool analystTools (fun _ => ⟨200, "null", .null⟩) "UnknownTool"
        (some (.obj [])) 0 = .error "Unknown tool: UnknownTool" :=
  ⟨by decide, callTool_unknown_tool (fun _ => ⟨200, "null", .null⟩) "UnknownTool"
    (some (.obj [])) 0 (by decide)⟩

/-- C7: the backend client primitives surface a non-2xx response as an error
whose message carries the path, the numeric status and the raw body text (and
nothing distinguishes error shapes further), and return the platform-parsed
JSON body unchanged on a 2xx response, with no output-schema validation. -/
theorem backendClient_error_surfacing (path : String) (body : JsValue) (res : HttpResponse) :
    (responseOk res = false →
      httpGet path res = .error (path ++ " " ++ toString res.status ++ ": " ++ res.bodyText) ∧
      httpPost path body res = .error (path ++ " " ++ toString res.status ++ ": " ++ res.bodyText) ∧
      strContains (path ++ " " ++ toString res.status ++ ": " ++ res.bodyText) path ∧
      strContains (path ++ " " ++ toString res.status ++ ": " ++ res.bodyText) (toString res.status) ∧
      strContains (path ++ " " ++ toString res.status ++ ": " ++ res.bodyText) res.bodyText) ∧
    (responseOk res = true →
      httpGet path res = .ok res.json ∧ httpPost path body res = .ok res.json) := by
  constructor
  · intro h
    refine ⟨by simp [httpGet, h], by simp [httpPost, h], ?_, ?_, ?_⟩
    · exact ⟨"", " " ++ toString res.status ++ ": " ++ res.bodyText, by
        simp [String.append_assoc]⟩
    · exact ⟨path ++ " ", ": " ++ res.bodyText, by simp [String.append_assoc]⟩
    · exact ⟨path ++ " " ++ toString res.status ++ ": ", "", by simp [String.append_assoc]⟩
  · intro h
    exact ⟨by simp [httpGet, h], by simp [httpPost, h]⟩

/-- Witness for C7 at the spec's example: a 404 with body `"not found"`, and
a 200 whose parsed body is returned untouched. -/
theorem backendClient_error_surfacing_witness :
    (httpGet "/resources" ⟨404, "not found", .null⟩ = .error "/resources 404: not found" ∧
      strContains "/resources 404: not found" "not found") ∧
    httpGet "/health" ⟨200, "irrelevant", .obj [("ok", .bool true)]⟩ =
      .ok (.obj [("ok", .bool true)]) :=
  ⟨⟨((backendClient_error_surfacing "/resources" .null ⟨404, "not found", .null⟩).1
      (by decide)).1,
    (((((backendClient_error_surfacing "/resources" .null ⟨404, "not found", .null⟩).1
      (by decide)).2).2).2).2⟩,
   ((backendClient_error_surfacing "/health" (.obj [])
      ⟨200, "irrelevant", .obj [("ok", .bool true)]⟩).2 (by decide)).1⟩

/-- C5: a `read-resource` request whose identifier is absent from the
backend's resource list fails with a `Resource not found` error naming the
identifier (environment-sourced variant, where the repository's own handler
performs the lookup over the fetched list). -/
theorem readResource_not_found (list : List ResourceDoc) (uri : String)
    (h : ∀ r ∈ list, r.id ≠ uri) :
    handleReadResource list uri = .error ("Resource not found: " ++ uri) := by
  unfold handleReadResource
  rw [List.find?_eq_none.mpr (by simpa using h)]

/-- Witness for C5 at the spec's example `read-resource("does-not-exist")`
against a backend list holding one other document. -/
theorem readResource_not_found_witness :
    handleReadResource [⟨"glossary-customer", some "Customer", some "gen", some "a customer is…", none, none⟩]
        "does-not-exist" = .error "Resource not found: does-not-exist" :=
  readResource_not_found _ "does-not-exist" (by decide)

/-- C4: under the environment-sourced policy, a set (truthy)
`GOOGLE_CREDENTIALS_JSON` makes `{profileId: "p1"}` resolve to that profile
id with the direct JSON blob as credentials — whatever the file-path variable
and the filesystem hold, so the blob takes precedence; with neither variable
set, resolution fails with the configuration-error message, which differs
from the caller-input message for a missing `profileId`. -/
theorem extractCredentialsEnv_policy :
    (∀ (gac : Option String) (readFile : String → Except String String) (j : String),
      j ≠ "" →
      extractCredentialsEnv ⟨some j, gac⟩ readFile (.obj [("profileId", .str "p1")]) =
        .ok ⟨.str "p1", .undefined, j⟩) ∧
    (∀ readFile : String → Except String String,
      extractCredentialsEnv ⟨none, none⟩ readFile (.obj [("profileId", .str "p1")]) =
        .error "No credentials found. Set either GOOGLE_CREDENTIALS_JSON or GOOGLE_APPLICATION_CREDENTIALS environment variable") ∧
    ("No credentials found. Set either GOOGLE_CREDENTIALS_JSON or GOOGLE_APPLICATION_CREDENTIALS environment variable" ≠
      "profileId parameter is required for BigQuery operations") := by
  refine ⟨?_, ?_, by decide⟩
  · intro gac readFile j hj
    have hb : (j != "") = true := by simpa using hj
    simp [extractCredentialsEnv, getCredentialsFromEnv, envTruthy, hb, getField, jsTruthy]
    rfl
  · intro readFile
    simp [extractCredentialsEnv, getCredentialsFromEnv, envTruthy, getField, jsTruthy]
    rfl

/-- Witness for C4: blob `"J"` set alongside a file path (and a filesystem
that would answer) still resolves to the blob; with both variables unset the
configuration error is raised. -/
theorem extractCredentialsEnv_policy_witness :
    extractCredentialsEnv ⟨some "J", some "/etc/creds.json"⟩ (fun _ => .ok "FILE")
        (.obj [("profileId", .str "p1")]) = .ok ⟨.str "p1", .undefined, "J"⟩ ∧
    extractCredentialsEnv ⟨none, none⟩ (fun _ => .ok "FILE")
        (.obj [("profileId", .str "p1")]) =
      .error "No credentials found. Set either GOOGLE_CREDENTIALS_JSON or GOOGLE_APPLICATION_CREDENTIALS environment variable" :=
  ⟨extractCredentialsEnv_policy.1 (some "/etc/creds.json") (fun _ => .ok "FILE") "J"
      (by decide),
   extractCredentialsEnv_policy.2.1 (fun _ => .ok "FILE")⟩

/-- When `evidence.sql_flow_diagram` is a non-empty string the reshaping
appends the diagram resource block after the serialized-result text block. -/
theorem reshape_diagram_str (result : JsValue) (now : Nat) (d : String)
    (hd : getField (getField result "evidence") "sql_flow_diagram" = .str d)
    (hne : d ≠ "") :
    reshapeToolResult "ExecuteSQL" result now =
      [ContentBlock.text (jsonStringify result),
       ContentBlock.resource ("mermaid://sql-execution-diagram/" ++ toString now)
         "text/vnd.mermaid" d] := by
  obtain ⟨efs, hev⟩ := getField_eq_obj (v := getField result "evidence")
    (by rw [hd]; simp)
  obtain ⟨fs, hres⟩ := getField_eq_obj (v := result) (by rw [hev]; simp)
  subst hres
  rw [hev] at hd
  have hb : (d != "") = true := by simpa using hne
  simp [reshapeToolResult, hev, hd, jsTruthy, jsTypeofObject, hb]

/-- When `evidence.sql_flow_diagram` is falsy (absent, empty string, …) the
diagram branch is not taken and only the text block is returned. -/
theorem reshape_falsy_diagram (name : String) (result : JsValue) (now : Nat)
    (h : jsTruthy (getField (getField result "evidence") "sql_flow_diagram") = false) :
    reshapeToolResult name result now = [ContentBlock.text (jsonStringify result)] := by
  unfold reshapeToolResult
  simp [h]

/-- When `evidence.sql_flow_diagram` is truthy but not a string, the diagram
branch is entered but the `typeof === 'string'` guard skips the resource
block, so again only the text block is returned. -/
theorem reshape_truthy_nonstring_diagram (name : String) (result : JsValue) (now : Nat)
    (ht : jsTruthy (getField (getField result "evidence") "sql_flow_diagram") = true)
    (hs : jsTypeofString (getField (getField result "evidence") "sql_flow_diagram") = false) :
    reshapeToolResult name result now = [ContentBlock.text (jsonStringify result)] := by
  unfold reshapeToolResult
  split
  · cases hd : getField (getField result "evidence") "sql_flow_diagram" <;>
      rw [hd] at hs <;> simp [jsTypeofString] at hs ⊢
  · rfl

/-- Running `call-tool("ExecuteSQL", args)` against a network that answers
with status 200 and JSON body `result` reaches the reshaping step on
`result`, provided the handler's credential validation passes. -/
theorem callTool_executeSQL_result (args result : JsValue) (bt : String) (now : Nat)
    (hc : jsTruthy (getField args "credentials") = true)
    (hp : jsTruthy (getField args "profileId") = true) :
    handleCallTool analystTools (fun _ => ⟨200, bt, result⟩) "ExecuteSQL" (some args) now =
      .ok (reshapeToolResult "ExecuteSQL" result now) := by
  unfold handleCallTool
  rw [toolsGet_executeSQL]
  simp [executeSQLDef, extractCredentials, hc, hp, runBackend, httpPost, responseOk,
    Bind.bind, Except.bind, Functor.map, Except.map, Pure.pure, Except.pure]

/-- C2: a `call-tool("ExecuteSQL", …)` invocation whose backend result
carries a non-empty string `evidence.sql_flow_diagram` returns a content
array of length two; the second block is a resource block of media type
`text/vnd.mermaid` whose text is exactly the diagram string. -/
theorem executeSQL_diagram_content (args result : JsValue) (bt : String) (now : Nat)
    (d : String)
    (hc : jsTruthy (getField args "credentials") = true)
    (hp : jsTruthy (getField args "profileId") = true)
    (hd : getField (getField result "evidence") "sql_flow_diagram" = .str d)
    (hne : d ≠ "") :
    handleCallTool analystTools (fun _ => ⟨200, bt, result⟩) "ExecuteSQL" (some args) now =
      .ok [ContentBlock.text (jsonStringify result),
           ContentBlock.resource ("mermaid://sql-execution-diagram/" ++ toString now)
             "text/vnd.mermaid" d] := by
  rw [callTool_executeSQL_result args result bt now hc hp,
    reshape_diagram_str result now d hd hne]

/-- Witness for C2 on the spec's `"graph TD..."` example. -/
theorem executeSQL_diagram_content_witness :
    handleCallTool analystTools
        (fun _ => ⟨200, "",
          .obj [("rows", .arr [.num 1]),
                ("evidence", .obj [("sql_flow_diagram", .str "graph TD; A-->B")])]⟩)
        "ExecuteSQL"
        (some (.obj [("profileId", .str "p1"), ("credentials", .str "c"),
                     ("dataset", .str "d"), ("sql", .str "SELECT 1"),
                     ("question", .str "why")])) 7 =
      .ok [ContentBlock.text (jsonStringify
             (.obj [("rows", .arr [.num 1]),
                    ("evidence", .obj [("sql_flow_diagram", .str "graph TD; A-->B")])])),
           ContentBlock.resource ("mermaid://sql-execution-diagram/" ++ toString 7)
             "text/vnd.mermaid" "graph TD; A-->B"] :=
  executeSQL_diagram_content
    (.obj [("profileId", .str "p1"), ("credentials", .str "c"), ("dataset", .str "d"),
           ("sql", .str "SELECT 1"), ("question", .str "why")])
    (.obj [("rows", .arr [.num 1]),
           ("evidence", .obj [("sql_flow_diagram", .str "graph TD; A-->B")])])
    "" 7 "graph TD; A-->B" (by decide) (by decide) rfl (by decide)

/-- C8: a `call-tool("ExecuteSQL", …)` invocation whose backend result omits
the `evidence.sql_flow_diagram` field (the access yields `undefined`) returns
a content array of length one, the single text block holding the serialized
result. -/
theorem executeSQL_no_diagram_content (args result : JsValue) (bt : String) (now : Nat)
    (hc : jsTruthy (getField args "credentials") = true)
    (hp : jsTruthy (getField args "profileId") = true)
    (hd : getField (getField result "evidence") "sql_flow_diagram" = .undefined) :
    handleCallTool analystTools (fun _ => ⟨200, bt, result⟩) "ExecuteSQL" (some args) now =
      .ok [ContentBlock.text (jsonStringify result)] := by
  rw [callTool_executeSQL_result args result bt now hc hp,
    reshape_falsy_diagram "ExecuteSQL" result now (by rw [hd]; rfl)]

/-- Witness for C8 on a result carrying rows and diagram-free evidence. -/
theorem executeSQL_no_diagram_content_witness :
    handleCallTool analystTools
        (fun _ => ⟨200, "",
          .obj [("rows", .arr [.num 1, .num 2]), ("evidence", .obj [("checks", .arr [])])]⟩)
        "ExecuteSQL"
        (some (.obj [("profileId", .str "p1"), ("credentials", .str "c"),
                     ("dataset", .str "d"), ("sql", .str "SELECT 1"),
                     ("question", .str "why")])) 7 =
      .ok [ContentBlock.text (jsonStringify
             (.obj [("rows", .arr [.num 1, .num 2]), ("evidence", .obj [("checks", .arr [])])]))] :=
  executeSQL_no_diagram_content
    (.obj [("profileId", .str "p1"), ("credentials", .str "c"), ("dataset", .str "d"),
           ("sql", .str "SELECT 1"), ("question", .str "why")])
    (.obj [("rows", .arr [.num 1, .num 2]), ("evidence", .obj [("checks", .arr [])])])
    "" 7 (by decide) (by decide) rfl

/-- C10: a `call-tool("ExecuteSQL", …)` invocation whose backend result has
`evidence.sql_flow_diagram` equal to the empty string, or truthy but not a
string, returns exactly one text block and no diagram block: the empty string
is falsy and fails the presence check, while a truthy non-string enters the
diagram branch but the `typeof === 'string'` guard skips the resource
block. -/
theorem executeSQL_degenerate_diagram_content (args result : JsValue) (bt : String)
    (now : Nat)
    (hc : jsTruthy (getField args "credentials") = true)
    (hp : jsTruthy (getField args "profileId") = true)
    (hd : getField (getField result "evidence") "sql_flow_diagram" = .str "" ∨
      (jsTruthy (getField (getField result "evidence") "sql_flow_diagram") = true ∧
       jsTypeofString (getField (getField result "evidence") "sql_flow_diagram") = false)) :
    handleCallTool analystTools (fun _ => ⟨200, bt, result⟩) "ExecuteSQL" (some args) now =
      .ok [ContentBlock.text (jsonStringify result)] := by
  rw [callTool_executeSQL_result args result bt now hc hp]
  cases hd with
  | inl h => rw [reshape_falsy_diagram "ExecuteSQL" result now (by rw [h]; rfl)]
  | inr h => rw [reshape_truthy_nonstring_diagram "ExecuteSQL" result now h.1 h.2]

/-- Witness for C10 on the empty-string diagram. -/
theorem executeSQL_degenerate_diagram_content_witness :
    handleCallTool analystTools
        (fun _ => ⟨200, "", .obj [("evidence", .obj [("sql_flow_diagram", .str "")])]⟩)
        "ExecuteSQL"
        (some (.obj [("profileId", .str "p1"), ("credentials", .str "c"),
                     ("dataset", .str "d"), ("sql", .str "SELECT 1"),
                     ("question", .str "why")])) 7 =
      .ok [ContentBlock.text (jsonStringify
             (.obj [("evidence", .obj [("sql_flow_diagram", .str "")])]))] :=
  executeSQL_degenerate_diagram_content
    (.obj [("profileId", .str "p1"), ("credentials", .str "c"), ("dataset", .str "d"),
           ("sql", .str "SELECT 1"), ("question", .str "why")])
    (.obj [("evidence", .obj [("sql_flow_diagram", .str "")])])
    "" 7 (by decide) (by decide) (Or.inl rfl)

/-- Counterexample to C1 as stated: `ListResources` declares `q` in its
schema's `required` list, yet `call-tool("ListResources", {})` does not fail
with a caller-input error — the handler never checks `q`, silently builds an
empty query string, and issues the backend call (here answered with `[]`),
so the invocation succeeds. -/
theorem listResources_missing_q_not_rejected :
    "q" ∈ schemaRequired listResourcesDef.inputSchema ∧
    toolsGet analystTools "ListResources" = some listResourcesDef ∧
    handleCallTool analystTools (fun _ => ⟨200, "[]", .arr []⟩) "ListResources"
        (some (.obj [])) 0 = .ok [ContentBlock.text (some "[]")] :=
  ⟨by decide, rfl, rfl⟩

/-- C1 (amended): required-field validation exists only inside
`extractCredentials`, so exactly for the tools that call it —
`GetTableGraph`, `GetUptoNDistinctStringValues` and `ExecuteSQL` — and only
for the `credentials` and `profileId` fields: omitting (any falsy value of)
`credentials` fails with the caller-input error naming `credentials`, and
with `credentials` present, omitting `profileId` fails with the error naming
`profileId`.  Both failures happen for every network oracle, i.e. before any
backend call.  Other required schema fields are forwarded unvalidated. -/
theorem credential_fields_validated (net : Network) (args : JsValue) (now : Nat)
    (tn : String)
    (htn : tn = "GetTableGraph" ∨ tn = "GetUptoNDistinctStringValues" ∨ tn = "ExecuteSQL") :
    (jsTruthy (getField args "credentials") = false →
      handleCallTool analystTools net tn (some args) now =
        .error "credentials parameter is required for BigQuery operations") ∧
    (jsTruthy (getField args "credentials") = true →
      jsTruthy (getField args "profileId") = false →
      handleCallTool analystTools net tn (some args) now =
        .error "profileId parameter is required for BigQuery operations") := by
  constructor
  · intro h
    rcases htn with rfl | rfl | rfl
    · unfold handleCallTool
      rw [toolsGet_getTableGraph]
      simp [getTableGraphDef, extractCredentials, h, Bind.bind, Except.bind]
    · unfold handleCallTool
      rw [toolsGet_getUptoN]
      simp [getUptoNDistinctStringValuesDef, extractCredentials, h, Bind.bind, Except.bind]
    · unfold handleCallTool
      rw [toolsGet_executeSQL]
      simp [executeSQLDef, extractCredentials, h, Bind.bind, Except.bind]
  · intro h1 h2
    rcases htn with rfl | rfl | rfl
    · unfold handleCallTool
      rw [toolsGet_getTableGraph]
      simp [getTableGraphDef, extractCredentials, h1, h2, Bind.bind, Except.bind]
    · unfold handleCallTool
      rw [toolsGet_getUptoN]
      simp [getUptoNDistinctStringValuesDef, extractCredentials, h1, h2, Bind.bind, Except.bind]
    · unfold handleCallTool
      rw [toolsGet_executeSQL]
      simp [executeSQLDef, extractCredentials, h1, h2, Bind.bind, Except.bind]

/-- Witness for the amended C1: `ExecuteSQL` without `credentials` fails
naming `credentials`; with `credentials` but without `profileId` it fails
naming `profileId`. -/
theorem credential_fields_validated_witness :
    handleCallTool analystTools (fun _ => ⟨200, "null", .null⟩) "ExecuteSQL"
        (some (.obj [("profileId", .str "p1")])) 0 =
      .error "credentials parameter is required for BigQuery operations" ∧
    handleCallTool analystTools (fun _ => ⟨200, "null", .null⟩) "ExecuteSQL"
        (some (.obj [("credentials", .str "c")])) 0 =
      .error "profileId parameter is required for BigQuery operations" :=
  ⟨(credential_fields_validated (fun _ => ⟨200, "null", .null⟩)
      (.obj [("profileId", .str "p1")]) 0 "ExecuteSQL" (Or.inr (Or.inr rfl))).1
      (by decide),
   (credential_fields_validated (fun _ => ⟨200, "null", .null⟩)
      (.obj [("credentials", .str "c")]) 0 "ExecuteSQL" (Or.inr (Or.inr rfl))).2
      (by decide) (by decide)⟩

/-- C9: enumerating the tools is a pure function of the immutable registry —
two enumerations are identical — and yields, in registration order, each
tool's name, its description defaulted to the empty string, and its input
schema. -/
theorem listTools_enumeration :
    listTools analystTools = listTools analystTools ∧
    (listTools analystTools).map ToolAdvert.name =
      ["SuggestVisualization", "GetTableGraph", "CheckHealth",
       "GetUptoNDistinctStringValues", "ExecuteSQL", "ListResources",
       "GetResource", "UpsertResource", "DeleteResource"] ∧
    (listTools analystTools).map ToolAdvert.description =
      analystTools.map (fun t => t.description.getD "") ∧
    (listTools analystTools).map ToolAdvert.inputSchema =
      analystTools.map ToolDef.inputSchema := by
  refine ⟨rfl, by decide, ?_, ?_⟩ <;> simp [listTools]

/-- C3 fails on the code: the diagram uri is derived solely from
`Date.now()`, so two `ExecuteSQL` reshapings in the same millisecond (here
1700000000000) attach two distinct diagram blocks carrying the same uri
`mermaid://sql-execution-diagram/1700000000000`. -/
theorem diagram_uri_collision :
    (reshapeToolResult "ExecuteSQL"
        (.obj [("evidence", .obj [("sql_flow_diagram", .str "graph TD; A-->B")])])
        1700000000000).get? 1 =
      some (ContentBlock.resource "mermaid://sql-execution-diagram/1700000000000"
        "text/vnd.mermaid" "graph TD; A-->B") ∧
    (reshapeToolResult "ExecuteSQL"
        (.obj [("evidence", .obj [("sql_flow_diagram", .str "graph LR; X-->Y")])])
        1700000000000).get? 1 =
      some (ContentBlock.resource "mermaid://sql-execution-diagram/1700000000000"
        "text/vnd.mermaid" "graph LR; X-->Y") :=
  ⟨rfl, rfl⟩
